import Mathlib

/-!
Verification development for the petition query tool
(`query_processor.py`): a shallow embedding of the Filter Engine
(`apply_filters`), the Fallback Interpreter (`fallback_query_processing`),
the deterministic statistical analysis (`generate_basic_analysis`) and the
orchestrating Query Interpreter (`process_natural_language_query`), with
theorems settling the specification's testable properties.

Modelling conventions:
* a pandas DataFrame of petitions is a `List Petition` (row order = index
  order);
* the loosely-typed JSON dict produced by the language model is the
  inductive `FVal`; Python dict `.get` is association-list lookup;
* Python exceptions raised inside `apply_filters` are `Except.error`;
* the two network calls are inputs: the filter-interpretation response is a
  `ModelResp` value and the narrative-analysis response an
  `Except String (Option String)` (error = the call raised, `Option`
  because the returned message content may be `None`);
* `pandas.sort_values` is modelled by an executable comparison sort.  The
  pandas contract for the call used by the source (single column, default
  `kind =` quicksort) guarantees only that the output is a permutation of
  the input ordered by the key; it does NOT guarantee stability.  Proofs of
  confirmed claims below use only the permutation/ordering facts, never the
  incidental stability of the executable model.
-/

/-- One row of the petition DataFrame: columns `Petition`, `URL`, `State`,
`Signatures Count` of `query_processor.py`. -/
structure Petition where
  title : String
  url : String
  state : String
  signatures : Nat
deriving Repr, DecidableEq, Inhabited

/-- A JSON-ish Python value, as produced by `json.loads` on the model
response: `None`/null, bool, int, str, list, dict. -/
inductive FVal where
  | vnull : FVal
  | vbool : Bool → FVal
  | vnum : Int → FVal
  | vstr : String → FVal
  | vlist : List FVal → FVal
  | vobj : List (String × FVal) → FVal

/-- Python `d.get(k)` on a dict modelled as an association list: the value
at the first occurrence of `k`, or `none` when the key is absent. -/
def dget (kvs : List (String × FVal)) (k : String) : Option FVal :=
  match kvs with
  | [] => none
  | (k', v) :: rest => if k' = k then some v else dget rest k

/-- `d.get(k)` where an absent key and a present `None` value are both
observed as `vnull` (Python `.get` without default returns `None` in both
cases). -/
def dgetN (kvs : List (String × FVal)) (k : String) : FVal :=
  (dget kvs k).getD .vnull

/-- Python `==` between a value and a string literal: true only for an
equal `str` (comparison with any other type is `False`, never an error). -/
def isStr (v : FVal) (s : String) : Bool :=
  match v with
  | .vstr t => t = s
  | _ => false

/-- Char-list version of "needle is a leading segment of hay". -/
def leadsIn : List Char → List Char → Bool
  | [], _ => true
  | _ :: _, [] => false
  | a :: as, b :: bs => a = b && leadsIn as bs

/-- Char-list substring test (needle occurs contiguously in hay). -/
def subIn (needle : List Char) : List Char → Bool
  | [] => needle.isEmpty
  | b :: bs => leadsIn needle (b :: bs) || subIn needle bs

/-- Python `needle in hay` on strings: case-sensitive substring test. -/
def pyIn (needle hay : String) : Bool :=
  subIn needle.data hay.data

/-- Python `s.lower()` (ASCII range, which covers every string these
claims exercise), written over the character list so that it reduces in
the kernel. -/
def lowerStr (s : String) : String :=
  ⟨s.data.map Char.toLower⟩

/-- Python `s[:n]` on a string, written over the character list. -/
def takeStr (s : String) (n : Nat) : String :=
  ⟨s.data.take n⟩

/-- Case-insensitive substring test, the semantics of
`Series.str.contains(pattern, case=False)` where `pattern` is an
alternation of `re.escape`d literals reduced to a single literal. -/
def containsCI (hay needle : String) : Bool :=
  subIn (lowerStr needle).data (lowerStr hay).data

/-- The list comprehension `[x.lower() ... for x in v]` over a Python list:
every element must be a `str`, otherwise an `AttributeError`/`TypeError`
is raised (modelled as `Except.error`). -/
def strList : List FVal → Except String (List String)
  | [] => .ok []
  | .vstr s :: rest => (strList rest).map (fun t => s :: t)
  | _ :: _ => .error "element of list is not a string"

/-- Step `signature_min` of `apply_filters` (query_processor.py:150-151):
skipped when the key is absent or `None`; an int (or bool, which Python
treats as an int) filters `Signatures Count >= value`; any other value
makes the pandas comparison raise. -/
def sigMinStep (df : List Petition) (kvs : List (String × FVal)) :
    Except String (List Petition) :=
  match dget kvs "signature_min" with
  | none => .ok df
  | some .vnull => .ok df
  | some (.vnum n) => .ok (df.filter (fun p => n ≤ (p.signatures : Int)))
  | some (.vbool b) =>
      .ok (df.filter (fun p => (if b then (1 : Int) else 0) ≤ (p.signatures : Int)))
  | some _ => .error "invalid comparison for signature_min"

/-- Step `signature_max` of `apply_filters` (query_processor.py:153-154). -/
def sigMaxStep (df : List Petition) (kvs : List (String × FVal)) :
    Except String (List Petition) :=
  match dget kvs "signature_max" with
  | none => .ok df
  | some .vnull => .ok df
  | some (.vnum n) => .ok (df.filter (fun p => (p.signatures : Int) ≤ n))
  | some (.vbool b) =>
      .ok (df.filter (fun p => (p.signatures : Int) ≤ (if b then (1 : Int) else 0)))
  | some _ => .error "invalid comparison for signature_max"

/-- Step `states` of `apply_filters` (query_processor.py:157-160): the
guard `filters.get('states') and isinstance(filters['states'], list)`
skips the step for an absent key, `None`, an empty list (falsy) and every
non-list value; for a non-empty list each element is lower-cased (raising
on non-strings) and rows are kept when the lower-cased `State` is in the
set. -/
def statesStep (df : List Petition) (kvs : List (String × FVal)) :
    Except String (List Petition) :=
  match dget kvs "states" with
  | some (.vlist (x :: xs)) =>
      match strList (x :: xs) with
      | .error e => .error e
      | .ok ss =>
          let states_lower := ss.map lowerStr
          .ok (df.filter (fun p => states_lower.contains (lowerStr p.state)))
  | _ => .ok df

/-- Step `keywords` of `apply_filters` (query_processor.py:163-168): same
guard shape as `states`; for a non-empty list of strings, rows are kept
when any keyword occurs case-insensitively in the title (the source joins
`re.escape`d keywords with `|`, i.e. a literal OR-match). -/
def keywordsStep (df : List Petition) (kvs : List (String × FVal)) :
    Except String (List Petition) :=
  match dget kvs "keywords" with
  | some (.vlist (x :: xs)) =>
      match strList (x :: xs) with
      | .error e => .error e
      | .ok ks =>
          .ok (df.filter (fun p => ks.any (fun kw => containsCI p.title kw)))
  | _ => .ok df

/-- Descending-by-signatures order used by `sort_values('Signatures
Count', ascending=False)`. -/
def sigGE (a b : Petition) : Prop := b.signatures ≤ a.signatures

instance : DecidableRel sigGE := fun a b => Nat.decLe _ _

/-- Ascending-by-signatures order. -/
def sigLE (a b : Petition) : Prop := a.signatures ≤ b.signatures

instance : DecidableRel sigLE := fun a b => Nat.decLe _ _

/-- Alphabetical-by-title order. -/
def titleLE (a b : Petition) : Prop := a.title ≤ b.title

instance : DecidableRel titleLE := fun a b =>
  inferInstanceAs (Decidable (a.title ≤ b.title))

/-- Model of `df.sort_values('Signatures Count', ascending=False)`.  Only
the pandas contract (permutation of the rows, ordered by the key) is
guaranteed by the source, since the default `kind` is quicksort; the
executable model is a concrete comparison sort and its stability must not
be relied on. -/
def sortByDesc (l : List Petition) : List Petition := l.insertionSort sigGE

/-- Model of `df.sort_values('Signatures Count', ascending=True)`. -/
def sortByAsc (l : List Petition) : List Petition := l.insertionSort sigLE

/-- Model of `df.sort_values('Petition', ascending=True)`. -/
def sortByTitle (l : List Petition) : List Petition := l.insertionSort titleLE

/-- Sorting step of `apply_filters` (query_processor.py:170-177):
`filters.get('sort_by', 'signatures_desc')` — the default applies only
when the key is absent; a present `None` or unknown value matches no
branch so the order is left unchanged. -/
def sortStep (l : List Petition) (kvs : List (String × FVal)) : List Petition :=
  let v := (dget kvs "sort_by").getD (.vstr "signatures_desc")
  if isStr v "signatures_desc" then sortByDesc l
  else if isStr v "signatures_asc" then sortByAsc l
  else if isStr v "alphabetical" then sortByTitle l
  else l

/-- Limit step of `apply_filters` (query_processor.py:180-181): the guard
`filters.get('limit') and isinstance(filters['limit'], int) and
filters['limit'] > 0` truncates only for a positive int (a Python bool is
an int, so `True` truncates to 1). -/
def limitStep (l : List Petition) (kvs : List (String × FVal)) : List Petition :=
  match dget kvs "limit" with
  | some (.vnum n) => if 0 < n then l.take n.toNat else l
  | some (.vbool b) => if b then l.take 1 else l
  | _ => l

/-- The four row-filtering steps of `apply_filters`, in source order. -/
def filterSteps (df : List Petition) (kvs : List (String × FVal)) :
    Except String (List Petition) :=
  match sigMinStep df kvs with
  | .error e => .error e
  | .ok a =>
    match sigMaxStep a kvs with
    | .error e => .error e
    | .ok b =>
      match statesStep b kvs with
      | .error e => .error e
      | .ok c => keywordsStep c kvs

/-- The Filter Engine `apply_filters(df, filters)`
(query_processor.py:142-183).  An empty DataFrame is returned unchanged
before `filters` is ever inspected; a non-dict `filters` value then raises
(`AttributeError` on `.get`); otherwise the five steps run in the fixed
order min/max/states/keywords, sort, limit (the trailing
`reset_index(drop=True)` does not change row order). -/
def apply_filters (df : List Petition) (filters : FVal) :
    Except String (List Petition) :=
  if df.isEmpty then .ok df
  else
    match filters with
    | .vobj kvs =>
        match filterSteps df kvs with
        | .error e => .error e
        | .ok l => .ok (limitStep (sortStep l kvs) kvs)
    | _ => .error "filters object has no attribute get"

/-- Encode an optional int field of a Filter Specification as its JSON
value (`null` when unused, as the prompt schema requests). -/
def optInt : Option Int → FVal
  | none => .vnull
  | some n => .vnum n

/-- Encode an optional string-list field of a Filter Specification. -/
def optStrList : Option (List String) → FVal
  | none => .vnull
  | some xs => .vlist (xs.map .vstr)

/-- A well-typed Filter Specification (spec section 3) rendered as the
JSON dict `apply_filters` receives: the five optional fields are present
with `null` when unused, and `sort_by` is present only when given (absence
selects the `signatures_desc` default). -/
def mkKvs (m M : Option Int) (states keywords : Option (List String))
    (lim : Option Int) (sort_by : Option String) : List (String × FVal) :=
  [("signature_min", optInt m), ("signature_max", optInt M),
   ("states", optStrList states), ("keywords", optStrList keywords),
   ("limit", optInt lim)] ++
  (match sort_by with
   | none => []
   | some s => [("sort_by", .vstr s)])

/-- The same Filter Specification as the `FVal` handed to
`apply_filters`. -/
def mkFilters (m M : Option Int) (states keywords : Option (List String))
    (lim : Option Int) (sort_by : Option String) : FVal :=
  .vobj (mkKvs m M states keywords lim sort_by)

/-- Round-half-even integer result of `a / b`, the rounding used by
Python's `format(x, '.0f')`.  The source formats the float
`df['Signatures Count'].mean()`; this models that as round-half-even of
the exact rational, which agrees with the float formatting whenever the
double value of the mean is exact or not at a rounding boundary. -/
def roundHalfEvenDiv (a b : Nat) : Nat :=
  let q := a / b
  let r := a % b
  if 2 * r < b then q
  else if b < 2 * r then q + 1
  else if q % 2 = 0 then q else q + 1

/-- Insert a comma after every third character of a reversed digit list:
helper for Python's `format(n, ',')` thousands grouping. -/
def commaRev : List Char → List Char
  | a :: b :: c :: d :: rest => a :: b :: c :: ',' :: commaRev (d :: rest)
  | l => l

/-- Python `f"{n:,}"` on a non-negative int: decimal digits grouped in
threes by commas. -/
def fmtComma (n : Nat) : String :=
  ⟨(commaRev (toString n).data.reverse).reverse⟩

/-- `df['Signatures Count'].sum()` as a plain total. -/
def totalSignatures (df : List Petition) : Nat :=
  (df.map (fun p => p.signatures)).sum

/-- `df.loc[df['Signatures Count'].idxmax()]`: the first row attaining the
maximum signature count (idxmax returns the first maximal index). -/
def firstMaxBySignatures (p : Petition) (l : List Petition) : Petition :=
  l.foldl (fun acc q => if acc.signatures < q.signatures then q else acc) p

/-- Number of rows whose `State` equals `s` (the `value_counts` entry for
`s`). -/
def countState (df : List Petition) (s : String) : Nat :=
  (df.filter (fun p => p.state == s)).length

/-- `df['State'].value_counts().index[0]`: a state with the greatest
count.  pandas does not pin the order of equal-count states; the model
takes the first-appearing state among those of maximal count. -/
def mostCommonState (df : List Petition) : String :=
  match df with
  | [] => "unknown"
  | p :: rest =>
      (rest.map (fun q => q.state)).foldl
        (fun acc s => if countState df acc < countState df s then s else acc)
        p.state

/-- `generate_basic_analysis(df)` (query_processor.py:259-296): the
deterministic statistical fallback for the narrative analysis. -/
def generate_basic_analysis (df : List Petition) : String :=
  if df.isEmpty then "No petitions found matching your criteria."
  else
    let total_petitions := df.length
    let total_signatures := totalSignatures df
    let top_petition := firstMaxBySignatures (df.headD default) df.tail
    let most_common_state := mostCommonState df
    let base :=
      "\n    **Analysis Results:**\n    \n    - Found **" ++
      toString total_petitions ++
      "** petitions matching your criteria\n    - Combined total of **" ++
      fmtComma total_signatures ++
      "** signatures\n    - Average of **" ++
      toString (roundHalfEvenDiv total_signatures total_petitions) ++
      "** signatures per petition\n    - Most signed petition: \"" ++
      (takeStr top_petition.title 100) ++
      "...\" with **" ++ fmtComma top_petition.signatures ++
      "** signatures\n    - Most common status: **" ++ most_common_state ++
      "** (" ++ toString (countState df most_common_state) ++
      " petitions)\n    \n    **Key Observations:**\n    " ++
      "- The results show varying levels of public engagement\n    " ++
      "- Petition success varies significantly across different topics\n    "
    if 1000000 < total_signatures then
      base ++ "\n- This query captured some highly successful petitions with substantial public support"
    else if 100000 < total_signatures then
      base ++ "\n- This represents a good collection of petitions with notable public interest"
    else
      base ++ "\n- These petitions represent more niche or specialized concerns"

/-- The Query Result Bundle (spec section 3): the dict returned by both
interpretation paths.  `interpretation` is kept as a raw `FVal` because
the AI path returns `ai_response.get('interpretation', 'Query
processed')`, which need not be a string; `analysis` is `Option` because
the AI path may return `None` message content; `raw_ai_response` is
present only on the AI path and `error` is added only by the exception
handler. -/
structure Bundle where
  interpretation : FVal
  filtered_data : List Petition
  analysis : Option String
  error : Option String
  raw_ai_response : Option (List (String × FVal))

/-- `signature_keywords` (query_processor.py:303-306), in Python dict
insertion order; `None` thresholds never trigger the signature filter. -/
def signature_keywords : List (String × Option Nat) :=
  [("high", some 100000), ("popular", some 50000), ("most", none),
   ("top", none), ("over 100k", some 100000), ("above 50k", some 50000),
   ("more than", none)]

/-- `topic_keywords` (query_processor.py:330-333). -/
def topic_keywords : List String :=
  ["health", "nhs", "education", "school", "tax", "brexit", "eu",
   "environment", "climate", "transport", "housing", "benefit", "pension",
   "immigration"]

/-- The signature-threshold scan of the fallback
(query_processor.py:312-316): the first phrase occurring in the lowered
query whose threshold is truthy filters `Signatures Count >= threshold`
and stops the scan; phrases without a threshold never stop it. -/
def sigScan (table : List (String × Option Nat)) (q : String)
    (df : List Petition) (interp : String) : List Petition × String :=
  match table with
  | [] => (df, interp)
  | (kw, thr) :: rest =>
      match thr with
      | some t =>
          if pyIn kw q && t != 0 then
            (df.filter (fun p => t ≤ p.signatures),
             interp ++ " (filtered for signatures >= " ++ fmtComma t ++ ")")
          else sigScan rest q df interp
      | none => sigScan rest q df interp

/-- The state scan of the fallback (query_processor.py:319-327):
closed / rejected / open checked in that order, first match applied as an
exact case-insensitive equality filter. -/
def stateScan (q : String) (df : List Petition) (interp : String) :
    List Petition × String :=
  if pyIn "closed" q then
    (df.filter (fun p => lowerStr p.state == "closed"),
     interp ++ " (filtered for closed petitions)")
  else if pyIn "rejected" q then
    (df.filter (fun p => lowerStr p.state == "rejected"),
     interp ++ " (filtered for rejected petitions)")
  else if pyIn "open" q then
    (df.filter (fun p => lowerStr p.state == "open"),
     interp ++ " (filtered for open petitions)")
  else (df, interp)

/-- The topic scan of the fallback (query_processor.py:335-341): the first
topic keyword occurring in the lowered query is applied as a
case-insensitive substring filter on the title, then the scan stops. -/
def topicScan (table : List String) (q : String) (df : List Petition)
    (interp : String) : List Petition × String :=
  match table with
  | [] => (df, interp)
  | kw :: rest =>
      if pyIn kw q then
        (df.filter (fun p => containsCI p.title kw),
         interp ++ " (filtered for '" ++ kw ++ "' in title)")
      else topicScan rest q df interp

/-- The Fallback Interpreter `fallback_query_processing(query, df)`
(query_processor.py:298-355): lower the query, apply the signature /
state / topic scans in order, always sort by signatures descending, and
truncate to 20 rows when the query mentions top / most / highest; the
analysis is always the deterministic statistical summary. -/
def fallback_query_processing (query : String) (df : List Petition) : Bundle :=
  let query_lower := lowerStr query
  let st1 := sigScan signature_keywords query_lower df
    ("Processed query using keyword matching: '" ++ query ++ "'")
  let st2 := stateScan query_lower st1.1 st1.2
  let st3 := topicScan topic_keywords query_lower st2.1 st2.2
  let sorted := sortByDesc st3.1
  let fin :=
    if ["top", "most", "highest"].any (fun w => pyIn w query_lower) then
      (sorted.take 20, st3.2 ++ " (showing top 20 results)")
    else (sorted, st3.2)
  { interpretation := .vstr fin.2
    filtered_data := fin.1
    analysis := some (generate_basic_analysis fin.1)
    error := none
    raw_ai_response := none }

/-- `generate_analysis(filtered_df, ...)` (query_processor.py:185-226),
with the narrative model call abstracted as an input: an empty result
returns the fixed message without calling the model; otherwise the call
either returns message content (possibly `None`) or raises, in which case
the deterministic statistical fallback is used.  The `analysis_request`
and `original_query` arguments only shape the prompt and cannot change the
returned value, so they are omitted. -/
def generate_analysis (reply : Except String (Option String))
    (filtered : List Petition) : Option String :=
  if filtered.isEmpty then some "No petitions found matching the specified criteria."
  else
    match reply with
    | .ok c => c
    | .error _ => some (generate_basic_analysis filtered)

/-- Outcome of the filter-interpretation model call and of the parsing of
its response (query_processor.py:67-81): the call raised; the message
content was `None` (the source then raises `ValueError("Empty response
from OpenAI")`); `json.loads` raised; the parsed JSON was not a dict (so
`.get` raises `AttributeError`); or a parsed dict. -/
inductive ModelResp where
  | callError : String → ModelResp
  | nullContent : ModelResp
  | badJson : String → ModelResp
  | parsedNonDict : String → ModelResp
  | parsed : List (String × FVal) → ModelResp

/-- The `str(e)` carried to the fallback error note by each failure mode
of the model response, `none` for a successfully parsed dict. -/
def failMsg : ModelResp → Option String
  | .callError m => some m
  | .nullContent => some "Empty response from OpenAI"
  | .badJson m => some m
  | .parsedNonDict m => some m
  | .parsed _ => none

/-- The annotation the exception handler adds to the fallback bundle:
`fallback_result['error'] = f"AI processing failed, using fallback:
{str(e)}"`. -/
def errNote (m : String) : String :=
  "AI processing failed, using fallback: " ++ m

/-- Set the `error` key of a bundle (query_processor.py:99). -/
def withError (b : Bundle) (m : String) : Bundle :=
  { b with error := some m }

/-- The Query Interpreter `process_natural_language_query(query, df)`
(query_processor.py:13-100), with the two model interactions abstracted
as the inputs `resp` (filter interpretation) and `areply` (narrative
analysis).  Any failure before or during filter application is caught by
the enclosing `except` and handled by the Fallback Interpreter with an
error annotation; on success the filters dict defaults to `{}` when the
`filters` key is absent and the bundle is assembled from the AI
response. -/
def process_natural_language_query (query : String) (df : List Petition)
    (resp : ModelResp) (areply : Except String (Option String)) : Bundle :=
  match resp with
  | .callError m => withError (fallback_query_processing query df) (errNote m)
  | .nullContent =>
      withError (fallback_query_processing query df)
        (errNote "Empty response from OpenAI")
  | .badJson m => withError (fallback_query_processing query df) (errNote m)
  | .parsedNonDict m =>
      withError (fallback_query_processing query df) (errNote m)
  | .parsed obj =>
      match apply_filters df ((dget obj "filters").getD (.vobj [])) with
      | .error e =>
          withError (fallback_query_processing query df) (errNote e)
      | .ok filtered =>
          { interpretation := (dget obj "interpretation").getD (.vstr "Query processed")
            filtered_data := filtered
            analysis := generate_analysis areply filtered
            error := none
            raw_ai_response := some obj }

/-! ## Concrete data used by witnesses and counterexamples -/

/-- The petition "Fund the NHS properly" (closed) from spec section 8. -/
def pNHS (u : String) (s : Nat) : Petition :=
  { title := "Fund the NHS properly", url := u, state := "closed", signatures := s }

/-- The petition "Ban fireworks" (open) from spec section 8. -/
def pFireworks (u : String) (s : Nat) : Petition :=
  { title := "Ban fireworks", url := u, state := "open", signatures := s }

/-! ## Theorems -/

/-- C6: for every Filter Specification (indeed for every value handed to
`apply_filters`, however malformed), applying it to an empty dataset
returns the empty sequence and raises no exception: the emptiness guard
returns before the filters value is ever inspected. -/
theorem apply_filters_empty_dataset (filters : FVal) :
    apply_filters [] filters = .ok [] := rfl

/-- Holds of the `states`/`keywords` value exactly when the source's guard
`filters.get(key) and isinstance(filters[key], list)` is false: an absent
key, `None`, an empty list, or any non-list value. -/
def skipsListFilter : FVal → Bool
  | .vlist (_ :: _) => false
  | _ => true

/-- C10: in any Filter Specification, a `states` entry that is an empty
list or any non-list value skips the state step entirely, and
independently a `keywords` entry that is an empty list or any non-list
value skips the keyword step entirely — regardless of what the other
field holds: that step returns every record unchanged and raises no
exception, for every dataset, empty or not. -/
theorem statesKeywordsSkipped (kvs : List (String × FVal)) (l : List Petition) :
    (skipsListFilter (dgetN kvs "states") = true → statesStep l kvs = .ok l) ∧
    (skipsListFilter (dgetN kvs "keywords") = true → keywordsStep l kvs = .ok l) := by
  constructor
  · intro hs
    unfold statesStep
    split
    · rename_i heq
      rw [dgetN, heq] at hs
      simp [skipsListFilter] at hs
    · rfl
  · intro hk
    unfold keywordsStep
    split
    · rename_i heq
      rw [dgetN, heq] at hk
      simp [skipsListFilter] at hk
    · rfl

/-- Witness for C10 at two concrete mixed specs: an empty-list `states`
alongside a genuine keywords filter, and a non-list `keywords` alongside
a genuine states filter — each degenerate field skips its own step. -/
theorem statesKeywordsSkipped_witness :
    statesStep [pNHS "u" 10]
      [("states", .vlist []), ("keywords", .vlist [.vstr "nhs"])] =
      .ok [pNHS "u" 10] ∧
    keywordsStep [pNHS "u" 10]
      [("states", .vlist [.vstr "closed"]), ("keywords", .vstr "nhs")] =
      .ok [pNHS "u" 10] :=
  ⟨(statesKeywordsSkipped [("states", .vlist []), ("keywords", .vlist [.vstr "nhs"])]
      [pNHS "u" 10]).1 rfl,
   (statesKeywordsSkipped [("states", .vlist [.vstr "closed"]), ("keywords", .vstr "nhs")]
      [pNHS "u" 10]).2 rfl⟩

/-- C1 counterexample: on exactly the dataset and query of the claim the
Fallback Interpreter returns no petitions at all — the topic step filters
titles by the query keyword "health", which occurs in neither title — so
the result does not contain the NHS petition. -/
theorem fallback_healthcare_cex :
    (fallback_query_processing "Show closed petitions about healthcare"
      [pNHS "u1" 1000, pFireworks "u2" 500]).filtered_data = [] ∧
    pNHS "u1" 1000 ∉ (fallback_query_processing "Show closed petitions about healthcare"
      [pNHS "u1" 1000, pFireworks "u2" 500]).filtered_data := by
  have h0 : (fallback_query_processing "Show closed petitions about healthcare"
      [pNHS "u1" 1000, pFireworks "u2" 500]).filtered_data = [] := rfl
  exact ⟨h0, by rw [h0]; exact List.not_mem_nil _⟩

/-- C1 (amended): for every dataset consisting of a petition titled "Fund
the NHS properly" with state "closed" and one titled "Ban fireworks" with
state "open" (any urls and signature counts), the Fallback Interpreter on
"Show closed petitions about healthcare" returns an empty result: the
state step keeps only the closed NHS petition and the topic step then
drops it because its title does not contain "health". -/
theorem fallback_healthcare_empty (u1 u2 : String) (s1 s2 : Nat) :
    (fallback_query_processing "Show closed petitions about healthcare"
      [pNHS u1 s1, pFireworks u2 s2]).filtered_data = [] := rfl

/-! ## The Filter Engine on well-typed Filter Specifications -/

/-- Whether a row passes the `signature_min` bound of a well-typed
specification (vacuously when the field is unused). -/
def passMinB : Option Int → Petition → Bool
  | none, _ => true
  | some n, p => n ≤ (p.signatures : Int)

/-- Whether a row passes the `signature_max` bound. -/
def passMaxB : Option Int → Petition → Bool
  | none, _ => true
  | some n, p => (p.signatures : Int) ≤ n

/-- Whether a row passes the `states` step of a well-typed specification.
A present empty list is skipped by the engine (the truthiness guard, see
C10), so it excludes nothing. -/
def statesPred : Option (List String) → Petition → Bool
  | none, _ => true
  | some [], _ => true
  | some (x :: xs), p => ((x :: xs).map lowerStr).contains (lowerStr p.state)

/-- Whether a row passes the `keywords` step of a well-typed
specification (same skip rule as `statesPred`). -/
def keywordsPred : Option (List String) → Petition → Bool
  | none, _ => true
  | some [], _ => true
  | some (x :: xs), p => (x :: xs).any (fun k => containsCI p.title k)

/-- The truncation performed by the limit step of a well-typed
specification. -/
def limitD : Option Int → List Petition → List Petition
  | none, l => l
  | some k, l => if 0 < k then l.take k.toNat else l

lemma dget_mkKvs_sort (m M : Option Int) (st kw : Option (List String))
    (lim : Option Int) (sb : Option String) :
    dget (mkKvs m M st kw lim sb) "sort_by" = sb.map .vstr := by
  cases sb <;> rfl

lemma strList_map_vstr (xs : List String) : strList (xs.map .vstr) = .ok xs := by
  induction xs with
  | nil => rfl
  | cons x xs ih => simp [strList, ih, Except.map]

lemma sigMinStep_mkKvs (df : List Petition) (m M : Option Int)
    (st kw : Option (List String)) (lim : Option Int) (sb : Option String) :
    sigMinStep df (mkKvs m M st kw lim sb) = .ok (df.filter (passMinB m)) := by
  cases m with
  | none =>
      have hp : passMinB none = fun _ => true := funext fun _ => rfl
      rw [hp, List.filter_true]
      rfl
  | some n => rfl

lemma sigMaxStep_mkKvs (df : List Petition) (m M : Option Int)
    (st kw : Option (List String)) (lim : Option Int) (sb : Option String) :
    sigMaxStep df (mkKvs m M st kw lim sb) = .ok (df.filter (passMaxB M)) := by
  cases M with
  | none =>
      have hp : passMaxB none = fun _ => true := funext fun _ => rfl
      rw [hp, List.filter_true]
      rfl
  | some n => rfl

lemma statesStep_mkKvs (df : List Petition) (m M : Option Int)
    (st kw : Option (List String)) (lim : Option Int) (sb : Option String) :
    statesStep df (mkKvs m M st kw lim sb) = .ok (df.filter (statesPred st)) := by
  match st with
  | none =>
      have hp : statesPred none = fun _ => true := funext fun _ => rfl
      rw [hp, List.filter_true]
      rfl
  | some [] =>
      have hp : statesPred (some []) = fun _ => true := funext fun _ => rfl
      rw [hp, List.filter_true]
      rfl
  | some (x :: xs) =>
      have hd : dget (mkKvs m M (some (x :: xs)) kw lim sb) "states" =
          some (.vlist ((x :: xs).map .vstr)) := rfl
      have hs : strList (FVal.vstr x :: List.map FVal.vstr xs) = .ok (x :: xs) :=
        strList_map_vstr (x :: xs)
      simp only [statesStep, hd, List.map_cons, hs]
      rfl

lemma keywordsStep_mkKvs (df : List Petition) (m M : Option Int)
    (st kw : Option (List String)) (lim : Option Int) (sb : Option String) :
    keywordsStep df (mkKvs m M st kw lim sb) = .ok (df.filter (keywordsPred kw)) := by
  match kw with
  | none =>
      have hp : keywordsPred none = fun _ => true := funext fun _ => rfl
      rw [hp, List.filter_true]
      rfl
  | some [] =>
      have hp : keywordsPred (some []) = fun _ => true := funext fun _ => rfl
      rw [hp, List.filter_true]
      rfl
  | some (x :: xs) =>
      have hd : dget (mkKvs m M st (some (x :: xs)) lim sb) "keywords" =
          some (.vlist ((x :: xs).map .vstr)) := rfl
      have hs : strList (FVal.vstr x :: List.map FVal.vstr xs) = .ok (x :: xs) :=
        strList_map_vstr (x :: xs)
      simp only [keywordsStep, hd, List.map_cons, hs]
      rfl

lemma limitStep_mkKvs (l : List Petition) (m M : Option Int)
    (st kw : Option (List String)) (lim : Option Int) (sb : Option String) :
    limitStep l (mkKvs m M st kw lim sb) = limitD lim l := by
  cases lim <;> rfl

lemma sortStep_mkKvs_lim_irrel (l : List Petition) (m M : Option Int)
    (st kw : Option (List String)) (lim lim' : Option Int) (sb : Option String) :
    sortStep l (mkKvs m M st kw lim sb) = sortStep l (mkKvs m M st kw lim' sb) := by
  unfold sortStep
  rw [dget_mkKvs_sort, dget_mkKvs_sort]

lemma mem_sortStep {p : Petition} (l : List Petition) (kvs : List (String × FVal)) :
    p ∈ sortStep l kvs ↔ p ∈ l := by
  unfold sortStep sortByDesc sortByAsc sortByTitle
  dsimp only
  split_ifs <;> simp [List.mem_insertionSort]

/-- Evaluation of `apply_filters` on a well-typed Filter Specification:
the four row filters, the sort, then the limit; never an exception. -/
lemma apply_filters_mkFilters (df : List Petition) (m M : Option Int)
    (st kw : Option (List String)) (lim : Option Int) (sb : Option String) :
    apply_filters df (mkFilters m M st kw lim sb) = .ok (
      if df.isEmpty then df
      else limitD lim (sortStep ((((df.filter (passMinB m)).filter
        (passMaxB M)).filter (statesPred st)).filter (keywordsPred kw))
        (mkKvs m M st kw lim sb))) := by
  cases hdf : df.isEmpty with
  | true => simp [apply_filters, mkFilters, hdf]
  | false =>
      simp only [apply_filters, mkFilters, hdf, Bool.false_eq_true, if_false,
        filterSteps, sigMinStep_mkKvs, sigMaxStep_mkKvs, statesStep_mkKvs,
        keywordsStep_mkKvs, limitStep_mkKvs]

/-- C4 counterexample: a Filter Specification with `signature_min = 0`,
`signature_max = 2000` and `limit = 1` on a two-row dataset whose rows
both lie in the range.  The output is the single highest-signature row,
so the output set is not the full set of in-range rows: the fireworks
petition is in range but missing. -/
theorem rangeMembership_limit_cex :
    apply_filters [pNHS "u1" 1000, pFireworks "u2" 500]
        (mkFilters (some 0) (some 2000) none none (some 1) none) =
      .ok [pNHS "u1" 1000] ∧
    pFireworks "u2" 500 ∈ [pNHS "u1" 1000, pFireworks "u2" 500] ∧
    (0 : Int) ≤ (500 : Int) ∧ (500 : Int) ≤ (2000 : Int) ∧
    pFireworks "u2" 500 ∉ [pNHS "u1" 1000] := by
  refine ⟨rfl, by decide, by decide, by decide, by decide⟩

/-- C4 (amended): for every dataset and every Filter Specification with
`signature_min = m` and `signature_max = M` (`m ≤ M`), no positive limit,
and `states`/`keywords` absent or non-empty when present, the set of
records in the output of `apply_filters` is exactly the set of input
records with `m ≤ signatures ≤ M` that also pass the states and keywords
filters. -/
theorem rangeMembership (df : List Petition) (m M : Int)
    (st kw : Option (List String)) (sb : Option String)
    (hmM : m ≤ M) (hst : st ≠ some []) (hkw : kw ≠ some []) :
    ∃ out, apply_filters df (mkFilters (some m) (some M) st kw none sb) = .ok out ∧
      ∀ p, p ∈ out ↔ p ∈ df ∧ m ≤ (p.signatures : Int) ∧ (p.signatures : Int) ≤ M ∧
        statesPred st p = true ∧ keywordsPred kw p = true := by
  refine ⟨_, apply_filters_mkFilters df (some m) (some M) st kw none sb, ?_⟩
  intro p
  cases hdf : df.isEmpty with
  | true =>
      rw [List.isEmpty_iff] at hdf
      subst hdf
      simp
  | false =>
      simp only [hdf, Bool.false_eq_true, if_false, limitD, mem_sortStep,
        List.mem_filter, passMinB, passMaxB, decide_eq_true_eq]
      tauto

/-- Witness for C4 at a concrete dataset and specification. -/
theorem rangeMembership_witness :
    ∃ out, apply_filters [pNHS "u1" 1000, pFireworks "u2" 500]
        (mkFilters (some 0) (some 2000) (some ["closed"]) none none none) = .ok out ∧
      ∀ p, p ∈ out ↔ p ∈ [pNHS "u1" 1000, pFireworks "u2" 500] ∧
        (0 : Int) ≤ (p.signatures : Int) ∧ (p.signatures : Int) ≤ (2000 : Int) ∧
        statesPred (some ["closed"]) p = true ∧ keywordsPred none p = true :=
  rangeMembership [pNHS "u1" 1000, pFireworks "u2" 500] 0 2000
    (some ["closed"]) none none (by decide) (by decide) (by decide)

/-- C7: for every dataset and well-typed Filter Specification, if the
no-limit specification yields `l0` then adding `limit = k` yields the
first `k` records when `k > 0` and exactly `l0` when `k ≤ 0`; in the
positive case the output length is `min k (pre-limit length)`. -/
theorem applyFilters_limit (df : List Petition) (m M : Option Int)
    (st kw : Option (List String)) (sb : Option String) (k : Int)
    (l0 : List Petition)
    (h0 : apply_filters df (mkFilters m M st kw none sb) = .ok l0) :
    apply_filters df (mkFilters m M st kw (some k) sb) =
      .ok (if 0 < k then l0.take k.toNat else l0) ∧
    (l0.take k.toNat).length = min k.toNat l0.length := by
  refine ⟨?_, List.length_take k.toNat l0⟩
  rw [apply_filters_mkFilters] at h0
  rw [apply_filters_mkFilters]
  by_cases hdf : df = []
  · subst hdf
    simp only [List.isEmpty_nil, if_true] at h0 ⊢
    cases h0
    simp
  · have hdf' : df.isEmpty = false := by
      simpa [List.isEmpty_iff] using hdf
    simp only [hdf', Bool.false_eq_true, if_false, limitD] at h0 ⊢
    cases h0
    rw [sortStep_mkKvs_lim_irrel _ m M st kw (some k) none sb]

/-- Witness for C7 at a concrete dataset, specification and `k = 1`. -/
theorem applyFilters_limit_witness :
    apply_filters [pNHS "u1" 1000, pFireworks "u2" 500]
        (mkFilters none none none none (some 1) none) =
      .ok (if (0 : Int) < 1 then
        [pNHS "u1" 1000, pFireworks "u2" 500].take (Int.toNat 1)
        else [pNHS "u1" 1000, pFireworks "u2" 500]) ∧
    ([pNHS "u1" 1000, pFireworks "u2" 500].take (Int.toNat 1)).length =
      min (Int.toNat 1) [pNHS "u1" 1000, pFireworks "u2" 500].length :=
  applyFilters_limit [pNHS "u1" 1000, pFireworks "u2" 500] none none none none
    none 1 [pNHS "u1" 1000, pFireworks "u2" 500] rfl

/-- On the empty filters dict `{}` (the default the Query Interpreter
substitutes for a missing `filters` key) every filter step is skipped and
only the default descending sort runs. -/
lemma apply_filters_emptyObj (df : List Petition) :
    apply_filters df (.vobj []) = .ok (if df.isEmpty then df else sortByDesc df) := by
  unfold apply_filters
  split
  · rename_i hc
    simp [hc]
  · rfl

/-- C2 counterexample: with the model response parsed as the JSON object
`{}` (no `filters` key), the Query Interpreter returns the AI-path bundle
— default interpretation text, `raw_ai_response` present, and the
filtered data produced by the Filter Engine on the empty specification —
not the bundle of the Fallback Interpreter, whose interpretation text
differs. -/
theorem missingFiltersKey_cex :
    (process_natural_language_query "hello" [pNHS "u" 10] (.parsed [])
        (.error "x")).interpretation = .vstr "Query processed" ∧
    (fallback_query_processing "hello" [pNHS "u" 10]).interpretation =
      .vstr "Processed query using keyword matching: 'hello'" ∧
    (process_natural_language_query "hello" [pNHS "u" 10] (.parsed [])
        (.error "x")).raw_ai_response = some [] ∧
    (fallback_query_processing "hello" [pNHS "u" 10]).raw_ai_response = none ∧
    apply_filters [pNHS "u" 10] (.vobj []) =
      .ok (process_natural_language_query "hello" [pNHS "u" 10] (.parsed [])
        (.error "x")).filtered_data :=
  ⟨rfl, rfl, rfl, rfl, rfl⟩

/-- C2 (amended): when the model response parses as a JSON object without
a `filters` key, the Query Interpreter does not raise and returns a
complete bundle — but it is produced on the AI path by handing the empty
Filter Specification `{}` to the Filter Engine (all records, default
descending sort), not by the Fallback Interpreter: the bundle has no
error annotation and carries the parsed response. -/
theorem missingFiltersKey_ai_path (query : String) (df : List Petition)
    (obj : List (String × FVal)) (areply : Except String (Option String))
    (h : dget obj "filters" = none) :
    (process_natural_language_query query df (.parsed obj) areply).error = none ∧
    (process_natural_language_query query df (.parsed obj) areply).raw_ai_response =
      some obj ∧
    apply_filters df (.vobj []) =
      .ok (process_natural_language_query query df (.parsed obj) areply).filtered_data := by
  have hfv : (dget obj "filters").getD (.vobj []) = FVal.vobj [] := by
    rw [h]
    rfl
  simp only [process_natural_language_query, hfv, apply_filters_emptyObj]
  refine ⟨?_, ?_, ?_⟩ <;> trivial

/-- Witness for C2's amended theorem at a concrete response object. -/
theorem missingFiltersKey_ai_path_witness :
    (process_natural_language_query "hi" [pNHS "u" 10]
        (.parsed [("interpretation", .vstr "x")]) (.ok none)).error = none ∧
    (process_natural_language_query "hi" [pNHS "u" 10]
        (.parsed [("interpretation", .vstr "x")]) (.ok none)).raw_ai_response =
      some [("interpretation", .vstr "x")] ∧
    apply_filters [pNHS "u" 10] (.vobj []) =
      .ok (process_natural_language_query "hi" [pNHS "u" 10]
        (.parsed [("interpretation", .vstr "x")]) (.ok none)).filtered_data :=
  missingFiltersKey_ai_path "hi" [pNHS "u" 10] [("interpretation", .vstr "x")]
    (.ok none) rfl

/-- C8: whenever the model call or the handling of its response fails —
the call raised, the content was `None`, the content was not JSON, the
JSON was not a dict (so `.get` raises), or applying the returned filters
raised inside the Filter Engine — the Query Interpreter returns exactly
the Fallback Interpreter's bundle annotated with the error note, so the
caller always receives a complete bundle with an error annotation and
non-empty analysis text, and no exception escapes. -/
theorem processFailure_fallback (query : String) (df : List Petition)
    (r : ModelResp) (areply : Except String (Option String)) (m : String)
    (hm : failMsg r = some m ∨
      (∃ obj, r = .parsed obj ∧
        apply_filters df ((dget obj "filters").getD (.vobj [])) = .error m)) :
    process_natural_language_query query df r areply =
      withError (fallback_query_processing query df) (errNote m) ∧
    (process_natural_language_query query df r areply).error = some (errNote m) ∧
    (process_natural_language_query query df r areply).analysis ≠ none := by
  rcases hm with hm | ⟨obj, rfl, hap⟩
  · cases r with
    | callError s =>
        simp only [failMsg, Option.some.injEq] at hm
        subst hm
        exact ⟨rfl, rfl, Option.some_ne_none _⟩
    | nullContent =>
        simp only [failMsg, Option.some.injEq] at hm
        subst hm
        exact ⟨rfl, rfl, Option.some_ne_none _⟩
    | badJson s =>
        simp only [failMsg, Option.some.injEq] at hm
        subst hm
        exact ⟨rfl, rfl, Option.some_ne_none _⟩
    | parsedNonDict s =>
        simp only [failMsg, Option.some.injEq] at hm
        subst hm
        exact ⟨rfl, rfl, Option.some_ne_none _⟩
    | parsed obj => simp [failMsg] at hm
  · simp only [process_natural_language_query, hap]
    refine ⟨?_, ?_, ?_⟩ <;> first | trivial | exact Option.some_ne_none _

/-- Witness for C8 at a concrete failing call. -/
theorem processFailure_fallback_witness :
    process_natural_language_query "q" [pNHS "u" 10] (.callError "boom") (.error "") =
      withError (fallback_query_processing "q" [pNHS "u" 10]) (errNote "boom") ∧
    (process_natural_language_query "q" [pNHS "u" 10] (.callError "boom")
      (.error "")).error = some (errNote "boom") ∧
    (process_natural_language_query "q" [pNHS "u" 10] (.callError "boom")
      (.error "")).analysis ≠ none :=
  processFailure_fallback "q" [pNHS "u" 10] (.callError "boom") (.error "")
    "boom" (Or.inl rfl)

/-- The full behavioural contract pandas gives for the sort the source
performs (`sort_values('Signatures Count', ascending=False)` with the
default `kind =` quicksort): the output is a permutation of the input,
ordered by descending signature count.  The default kind is documented as
not stable, so nothing beyond this contract holds of the source's sort. -/
def pandasSortDescContract (inp out : List Petition) : Prop :=
  out.Perm inp ∧ out.Sorted sigGE

/-- C3: the sorting contract of the source's sort primitive does not
determine the relative order of equal-signature records: on a
two-record tie both the original order and the swapped order satisfy the
contract, so stability is not guaranteed by the code (the spec's stable
tie-breaking would require `kind='stable'`, which the source does not
pass). -/
theorem sortDescContract_not_stable :
    pandasSortDescContract [pNHS "a" 100, pNHS "b" 100]
      [pNHS "a" 100, pNHS "b" 100] ∧
    pandasSortDescContract [pNHS "a" 100, pNHS "b" 100]
      [pNHS "b" 100, pNHS "a" 100] ∧
    [pNHS "a" 100, pNHS "b" 100] ≠ [pNHS "b" 100, pNHS "a" 100] := by
  refine ⟨⟨by decide, ?_⟩, ⟨List.Perm.swap _ _ _, ?_⟩, by decide⟩ <;>
    · constructor
      · intro b hb
        simp at hb
        subst hb
        exact Nat.le_refl _
      · exact List.sorted_singleton _

/-! ## Heap-level model for the no-mutation claim -/

/-- A heap of DataFrames: the Python objects relevant to the mutation
claim.  Every pandas operation the source applies (`copy`, boolean-mask
selection, `sort_values`, `head`, `reset_index(drop=True)` — all with
their default out-of-place behaviour) returns a fresh frame and writes
into none of its inputs, so at heap level a call can only append frames. -/
abbrev Heap := List (List Petition)

/-- `apply_filters` acting on a heap: the dataset is read from slot `i`;
an empty dataset is returned as the same object (`return df`), otherwise
`df.copy()` and the subsequent out-of-place operations allocate fresh
frames (intermediate frames elided — only the final one is kept — since
allocation count does not affect existing slots). -/
def apply_filters_heap (h : Heap) (i : Nat) (filters : FVal) :
    Except String Nat × Heap :=
  let df := h.getD i []
  if df.isEmpty then (.ok i, h)
  else
    match apply_filters df filters with
    | .error e => (.error e, h ++ [df])
    | .ok out => (.ok h.length, h ++ [out])

/-- `fallback_query_processing` acting on a heap: reads slot `i`, and its
`df.copy()` plus out-of-place filtering/sorting allocate a fresh result
frame. -/
def fallback_heap (query : String) (h : Heap) (i : Nat) : Bundle × Heap :=
  let df := h.getD i []
  (fallback_query_processing query df,
   h ++ [(fallback_query_processing query df).filtered_data])

/-- C9: neither the Filter Engine nor the Fallback Interpreter mutates
the input dataset: every pre-existing heap slot — in particular the input
dataset's — holds the same records in the same order after the call,
whether the call succeeds or raises. -/
theorem no_mutation (h : Heap) (i j : Nat) (f : FVal) (q : String)
    (hj : j < h.length) :
    ((apply_filters_heap h i f).2).getD j [] = h.getD j [] ∧
    ((fallback_heap q h i).2).getD j [] = h.getD j [] := by
  constructor
  · unfold apply_filters_heap
    dsimp only
    split
    · rfl
    · split <;> exact List.getD_append _ _ _ _ hj
  · exact List.getD_append _ _ _ _ hj

/-- Witness for C9 at a concrete one-slot heap. -/
theorem no_mutation_witness :
    ((apply_filters_heap [[pNHS "u" 10]] 0 (.vobj [])).2).getD 0 [] =
      [[pNHS "u" 10]].getD 0 [] ∧
    ((fallback_heap "q" [[pNHS "u" 10]] 0).2).getD 0 [] =
      [[pNHS "u" 10]].getD 0 [] :=
  no_mutation [[pNHS "u" 10]] 0 0 (.vobj []) "q" (by decide)
